import Mathlib

/-!
Formal model of the tech-trend-blog content server (`src/functions/[[path]].ts`).

The repository is a single Hono application serving stored "trend" entries keyed
by date and twice-daily slot.  The file contains two duplicated route sets; the
first (primary) set is modelled at top level, the second (legacy) set inside
namespace `Legacy`.  External collaborators are modelled as follows:

* the D1 datastore is a `List Entry` together with the semantics of the one SQL
  query the code issues (`SELECT ... WHERE date = ? ORDER BY slot ASC`);
* the markdown converter `marked.parse` is an arbitrary function
  `md : String → String` (the spec treats it as a black box);
* Hono's `html` tagged template escapes interpolated plain strings
  (`& < > " '`, modelled by `escapeHtml`) and splices already-rendered HTML
  values verbatim;
* `new Date()` is an injected current time `nowMs : Nat`, milliseconds since
  the Unix epoch (the model covers times at or after the epoch, years ≤ 9999,
  which is the regime in which `toISOString().slice(0, 10)` yields a
  `YYYY-MM-DD` string);
* JavaScript string comparison (`<`, `<=`, `>=`) is code-unit lexicographic
  comparison, modelled by `jsLtChars` on the underlying character lists.

Responses are modelled by `HandlerResult`: the response body string together
with the list of dates the handler queried the datastore for (so that "performs
no data-store fetch" is an observable statement).
-/

/-- Entry: one stored trend row, mirroring the columns selected by the code:
`id, date, slot, raw_response, fetched_at` (TS `number` fields become `Int`). -/
structure Entry where
  id : Int
  date : String
  slot : Int
  raw_response : String
  fetched_at : String
deriving Repr, DecidableEq

/-- Bindings: the environment of the worker.  The `DB` binding is passed to the
handlers separately as a `List Entry` store; only the optional `EARLIEST_DATE`
configuration string is carried here. -/
structure Bindings where
  EARLIEST_DATE : Option String
deriving Repr, DecidableEq

/-- DEFAULT_EARLIEST_DATE: the fixed default for the earliest browsable date. -/
def DEFAULT_EARLIEST_DATE : String := "2025-12-25"

/-- civilFromDays: convert a count of days since 1970-01-01 into a Gregorian
`(year, month, day)` triple.  This is the standard civil-from-days algorithm
and models how JavaScript's `Date.prototype.toISOString` derives its calendar
fields from a millisecond timestamp (restricted here to non-negative days). -/
def civilFromDays (days : Nat) : Nat × Nat × Nat :=
  let z := days + 719468
  let era := z / 146097
  let doe := z % 146097
  let yoe := (doe - doe / 1460 + doe / 36524 - doe / 146096) / 365
  let y := yoe + era * 400
  let doy := doe - (365 * yoe + yoe / 4 - yoe / 100)
  let mp := (5 * doy + 2) / 153
  let d := doy - (153 * mp + 2) / 5 + 1
  let m := if mp < 10 then mp + 3 else mp - 9
  (if m ≤ 2 then y + 1 else y, m, d)

/-- pad2: zero-pad a number to two digits, as `toISOString` prints months/days. -/
def pad2 (n : Nat) : String :=
  if n < 10 then "0" ++ toString n else toString n

/-- pad4: zero-pad a number to four digits, as `toISOString` prints years. -/
def pad4 (n : Nat) : String :=
  if n < 10 then "000" ++ toString n
  else if n < 100 then "00" ++ toString n
  else if n < 1000 then "0" ++ toString n
  else toString n

/-- formatJstDate: the source's `formatJstDate` — shift the current instant by
nine hours and print the UTC calendar date of the shifted instant, i.e.
`new Date(date.getTime() + 9 * 60 * 60 * 1000).toISOString().slice(0, 10)`. -/
def formatJstDate (nowMs : Nat) : String :=
  let jst := nowMs + 9 * 60 * 60 * 1000
  let c := civilFromDays (jst / 86400000)
  pad4 c.1 ++ "-" ++ pad2 c.2.1 ++ "-" ++ pad2 c.2.2

/-- isValidDateString: the source's regex test `/^\d{4}-\d{2}-\d{2}$/.test value`
— exactly ten characters, digit/digit/digit/digit, hyphen, digit/digit, hyphen,
digit/digit (JavaScript `\d` is `[0-9]`, matching `Char.isDigit`). -/
def isValidDateString (value : String) : Bool :=
  match value.data with
  | [y1, y2, y3, y4, h1, m1, m2, h2, d1, d2] =>
    y1.isDigit && y2.isDigit && y3.isDigit && y4.isDigit && h1 == '-' &&
      m1.isDigit && m2.isDigit && h2 == '-' && d1.isDigit && d2.isDigit
  | _ => false

/-- resolveDate: the source's `resolveDate` — an absent parameter is `none`, and
JavaScript's falsy test `!input` additionally catches the empty string; any
input that is absent, empty or fails the format check yields the fallback. -/
def resolveDate (input : Option String) (fallback : String) : String :=
  match input with
  | none => fallback
  | some s => if s.isEmpty || !isValidDateString s then fallback else s

/-- jsLtChars: JavaScript's abstract relational comparison `a < b` on strings,
on the underlying character sequences — find the first differing position and
compare there; a proper prefix is smaller. -/
def jsLtChars : List Char → List Char → Bool
  | [], [] => false
  | [], _ :: _ => true
  | _ :: _, [] => false
  | a :: as, b :: bs =>
    if a < b then true
    else if b < a then false
    else jsLtChars as bs

/-- jsGeString: JavaScript `a >= b` on strings, which evaluates `!(a < b)`. -/
def jsGeString (a b : String) : Bool := !jsLtChars a.data b.data

/-- jsLeString: JavaScript `a <= b` on strings, which evaluates `!(b < a)`. -/
def jsLeString (a b : String) : Bool := !jsLtChars b.data a.data

/-- validateDateRange: the source's `validateDateRange` —
`date >= minDate && date <= maxDate` under JavaScript string comparison. -/
def validateDateRange (date minDate maxDate : String) : Bool :=
  jsGeString date minDate && jsLeString date maxDate

/-- slotLe: the comparison realising `ORDER BY slot ASC` on entries. -/
def slotLe (a b : Entry) : Prop := a.slot ≤ b.slot

instance : DecidableRel slotLe := fun a b => inferInstanceAs (Decidable (a.slot ≤ b.slot))

instance : IsTotal Entry slotLe := ⟨fun a b => Int.le_total a.slot b.slot⟩

instance : IsTrans Entry slotLe := ⟨fun _ _ _ => Int.le_trans⟩

/-- fetchEntriesForDate: the source's `fetchEntriesForDate`, i.e. the semantics
of the one SQL query the code issues against the external D1 store:
`SELECT id, date, slot, raw_response, fetched_at FROM trend_entries WHERE date
= ? ORDER BY slot ASC` — the rows of the store whose `date` column equals the
bound argument, sorted ascending by `slot` (with `results ?? []` an absence of
rows is the empty list, never a failure). -/
def fetchEntriesForDate (store : List Entry) (date : String) : List Entry :=
  List.insertionSort slotLe (store.filter (fun e => e.date == date))

/-- escapeHtmlChar: Hono's `html` template escaping of one character — the five
characters `& < > " '` become entity references, everything else is kept. -/
def escapeHtmlChar (c : Char) : String :=
  if c = '&' then "&amp;"
  else if c = '<' then "&lt;"
  else if c = '>' then "&gt;"
  else if c = '"' then "&quot;"
  else if c = Char.ofNat 39 then "&#39;"
  else String.singleton c

/-- escapeHtml: Hono's `html` template escaping applied to an interpolated
plain string. -/
def escapeHtml (s : String) : String :=
  String.join (s.data.map escapeHtmlChar)

/-- slotLabel: the source's local `slotLabel` in `renderEntryHtml` —
`entry.slot === 0 ? "00:00 取得" : "12:00 取得"`. -/
def slotLabel (entry : Entry) : String :=
  if entry.slot = 0 then "00:00 取得" else "12:00 取得"

/-- renderEntryHtml: the source's `renderEntryHtml` — the `<article>` template
with the slot label and `fetched_at` interpolated as escaped plain strings and
the converted markdown `raw(content)` spliced verbatim (`md` models
`marked.parse`). -/
def renderEntryHtml (md : String → String) (entry : Entry) : String :=
  let content := md entry.raw_response
  "\n    <article class=\"mb-4\">\n      <div class=\"d-flex flex-wrap justify-content-between align-items-center mb-2\">\n        <h2 class=\"h5 mb-0\">"
    ++ escapeHtml (slotLabel entry)
    ++ "</h2>\n        <span class=\"text-muted small\">取得時刻 (UTC): "
    ++ escapeHtml entry.fetched_at
    ++ "</span>\n      </div>\n      <div class=\"markdown-body\">"
    ++ content
    ++ "</div>\n    </article>\n  "

/-- noDataHtml: the fixed "no data for this date" placeholder fragment. -/
def noDataHtml : String :=
  "<p class=\"text-muted\">この日付のデータは見つかりませんでした。</p>"

/-- renderEntries: the source's `renderEntries` — the placeholder for an empty
sequence, otherwise the concatenation of the per-entry fragments (Hono's
`html` template splices a list of already-rendered values back-to-back). -/
def renderEntries (md : String → String) (entries : List Entry) : String :=
  if entries.length = 0 then noDataHtml
  else String.join (entries.map (renderEntryHtml md))

/-- renderEntriesPartial: the source's `renderEntriesPartial` — re-splicing an
already-rendered HTML value into a bare `html` template returns it verbatim. -/
def renderEntriesPartial (md : String → String) (entries : List Entry) : String :=
  renderEntries md entries

/-- outOfRangeHtml: the fixed out-of-range warning fragment of `/api/entry`. -/
def outOfRangeHtml : String :=
  "<p class=\"text-danger\">選択できる日付の範囲外です。</p>"

/-- pageDoctype: the opening of the `renderPage` template, up to the end of the
doctype line. -/
def pageDoctype : String := "\n  <!doctype html>"

/-- pageHead: the `renderPage` template from after the doctype line up to the
`value="` attribute of the date input (the first interpolation point). -/
def pageHead : String := "
  <html lang=\"ja\">
    <head>
      <meta charset=\"utf-8\" />
      <meta name=\"viewport\" content=\"width=device-width, initial-scale=1\" />
      <title>Tech Trend Blog</title>
      <link
        href=\"https://cdn.jsdelivr.net/npm/bootstrap@5.3.3/dist/css/bootstrap.min.css\"
        rel=\"stylesheet\"
        crossorigin=\"anonymous\"
      />
      <style>
        body \x7b
          background: #f8f9fa;
        \x7d
        .blog-card \x7b
          background: #ffffff;
          border-radius: 1rem;
          box-shadow: 0 12px 32px rgba(15, 23, 42, 0.08);
        \x7d
        .markdown-body h1,
        .markdown-body h2,
        .markdown-body h3 \x7b
          margin-top: 1.5rem;
        \x7d
        .markdown-body pre \x7b
          background: #0f172a;
          color: #e2e8f0;
          padding: 1rem;
          border-radius: 0.75rem;
        \x7d
        .markdown-body code \x7b
          background: #e2e8f0;
          padding: 0.1rem 0.3rem;
          border-radius: 0.25rem;
        \x7d
      </style>
    </head>
    <body class=\"py-4\">
      <div class=\"container\">
        <header class=\"mb-4 text-center\">
          <h1 class=\"display-6 fw-bold\">Tech Trend Blog</h1>
          <p class=\"text-muted\">
            xAI から取得した情報をまとめています。内容に誤りがある可能性があります。
          </p>
        </header>

        <section class=\"blog-card p-4 mb-4\">
          <div class=\"row g-3 align-items-end\">
            <div class=\"col-md-6\">
              <label class=\"form-label fw-semibold\">日付を選択</label>
              <input
                class=\"form-control\"
                type=\"date\"
                name=\"date\"
                value=\""

/-- pageBetweenDateMin: the template between the `date` interpolation and the
`min="` attribute. -/
def pageBetweenDateMin : String := "\"\n                min=\""

/-- pageBetweenMinMax: the template between the `minDate` interpolation and the
`max="` attribute. -/
def pageBetweenMinMax : String := "\"\n                max=\""

/-- pageAfterControls: the template from after the `max` attribute value
through the button section, up to the range note's `minDate` interpolation. -/
def pageAfterControls : String := "\"
                x-data
                @change=\"$dispatch(\x27date-change\x27, \x7b value: $event.target.value \x7d)\"
              />
            </div>
            <div class=\"col-md-6 text-md-end\">
              <button
                class=\"btn btn-primary\"
                hx-get=\"/api/entry\"
                hx-include=\"[name=\x27date\x27]\"
                hx-target=\"#entry-content\"
                hx-swap=\"innerHTML\"
              >
                記事を表示
              </button>
            </div>
          </div>
          <p class=\"small text-muted mt-3 mb-0\">
            "

/-- pageRangeSep: the text between the range note's two interpolations. -/
def pageRangeSep : String := " から "

/-- pageAfterRangeNote: the template from after the range note's `maxDate`
interpolation up to the `renderEntries` interpolation. -/
def pageAfterRangeNote : String := " まで遡れます。
          </p>
        </section>

        <section class=\"blog-card p-4\" id=\"entry-content\">
          "

/-- pageTail: the template after the `renderEntries` interpolation, to the end
of the document. -/
def pageTail : String := "
        </section>

        <footer class=\"text-center mt-4 text-muted small\">
          Tech Trend Blog · Cloudflare Pages
        </footer>
      </div>
      <script src=\"https://cdn.jsdelivr.net/npm/htmx.org@1.9.12\"></script>
      <script src=\"https://cdn.jsdelivr.net/npm/alpinejs@3.x.x/dist/cdn.min.js\" defer></script>
      <script>
        document.addEventListener(\"date-change\", (event) => \x7b
          const dateInput = document.querySelector(\"input[name=\x27date\x27]\");
          if (!dateInput) return;
          dateInput.value = event.detail.value;
        \x7d);
      </script>
    </body>
  </html>
"

/-- renderPage: the source's `renderPage` — the full HTML document, with
`date`, `minDate` and `maxDate` interpolated as escaped plain strings (each of
the latter two appears twice: once in the date input's attributes and once in
the range note) and the rendered entry list spliced verbatim into the
`#entry-content` section. -/
def renderPage (md : String → String) (date : String) (entries : List Entry)
    (minDate : String) (maxDate : String) : String :=
  pageDoctype ++ pageHead ++ escapeHtml date ++ pageBetweenDateMin ++ escapeHtml minDate
    ++ pageBetweenMinMax ++ escapeHtml maxDate ++ pageAfterControls ++ escapeHtml minDate
    ++ pageRangeSep ++ escapeHtml maxDate ++ pageAfterRangeNote ++ renderEntries md entries
    ++ pageTail

/-- HandlerResult: the observable outcome of one request — the response body
string together with the list of dates for which the handler queried the
datastore (in order). -/
structure HandlerResult where
  body : String
  dbQueries : List String
deriving Repr, DecidableEq

/-- getRootHandler: the source's `app.get("/")` — resolve the window and the
requested date (query parameter, fallback `maxDate`), fetch entries only when
the date is in range (else use `[]`), and respond with the full page. -/
def getRootHandler (env : Bindings) (store : List Entry) (md : String → String)
    (nowMs : Nat) (queryDate : Option String) : HandlerResult :=
  let minDate := env.EARLIEST_DATE.getD DEFAULT_EARLIEST_DATE
  let maxDate := formatJstDate nowMs
  let date := resolveDate queryDate maxDate
  if validateDateRange date minDate maxDate then
    { body := renderPage md date (fetchEntriesForDate store date) minDate maxDate,
      dbQueries := [date] }
  else
    { body := renderPage md date [] minDate maxDate, dbQueries := [] }

/-- getDateHandler: the source's `app.get("/date/:date")` — as `getRootHandler`
but the requested date comes from the path parameter, which is always a
present string. -/
def getDateHandler (env : Bindings) (store : List Entry) (md : String → String)
    (nowMs : Nat) (param : String) : HandlerResult :=
  let minDate := env.EARLIEST_DATE.getD DEFAULT_EARLIEST_DATE
  let maxDate := formatJstDate nowMs
  let date := resolveDate (some param) maxDate
  if validateDateRange date minDate maxDate then
    { body := renderPage md date (fetchEntriesForDate store date) minDate maxDate,
      dbQueries := [date] }
  else
    { body := renderPage md date [] minDate maxDate, dbQueries := [] }

/-- apiEntryHandler: the source's primary `app.get("/api/entry")` — resolve the
date (fallback `maxDate`); when it is out of range, return the fixed warning
fragment without touching the store; otherwise fetch the entries and return
the rendered entry list fragment (no page wrapper). -/
def apiEntryHandler (env : Bindings) (store : List Entry) (md : String → String)
    (nowMs : Nat) (queryDate : Option String) : HandlerResult :=
  let minDate := env.EARLIEST_DATE.getD DEFAULT_EARLIEST_DATE
  let maxDate := formatJstDate nowMs
  let date := resolveDate queryDate maxDate
  if !validateDateRange date minDate maxDate then
    { body := outOfRangeHtml, dbQueries := [] }
  else
    { body := renderEntriesPartial md (fetchEntriesForDate store date),
      dbQueries := [date] }

/-- MetaResponse: the JSON payload of `GET /api/meta`. -/
structure MetaResponse where
  minDate : String
  maxDate : String
  defaultDate : String
deriving Repr, DecidableEq

namespace Legacy

/-! The second (legacy) copy of the module in `src/functions/[[path]].ts`
duplicates the constants and helper functions verbatim and defines the
`GET /api/meta` route and a second `GET /api/entry` route; the definitions
below embed that copy independently of the primary one. -/

/-- DEFAULT_EARLIEST_DATE of the legacy copy. -/
def DEFAULT_EARLIEST_DATE : String := "2025-12-25"

/-- formatJstDate of the legacy copy (same shift-by-nine-hours computation,
sharing the calendar model of `toISOString`). -/
def formatJstDate (nowMs : Nat) : String :=
  let jst := nowMs + 9 * 60 * 60 * 1000
  let c := civilFromDays (jst / 86400000)
  pad4 c.1 ++ "-" ++ pad2 c.2.1 ++ "-" ++ pad2 c.2.2

/-- isValidDateString of the legacy copy. -/
def isValidDateString (value : String) : Bool :=
  match value.data with
  | [y1, y2, y3, y4, h1, m1, m2, h2, d1, d2] =>
    y1.isDigit && y2.isDigit && y3.isDigit && y4.isDigit && h1 == '-' &&
      m1.isDigit && m2.isDigit && h2 == '-' && d1.isDigit && d2.isDigit
  | _ => false

/-- resolveDate of the legacy copy. -/
def resolveDate (input : Option String) (fallback : String) : String :=
  match input with
  | none => fallback
  | some s => if s.isEmpty || !isValidDateString s then fallback else s

/-- validateDateRange of the legacy copy. -/
def validateDateRange (date minDate maxDate : String) : Bool :=
  jsGeString date minDate && jsLeString date maxDate

/-- fetchEntriesForDate of the legacy copy (the identical SQL query). -/
def fetchEntriesForDate (store : List Entry) (date : String) : List Entry :=
  List.insertionSort slotLe (store.filter (fun e => e.date == date))

/-- renderEntryHtml of the legacy copy. -/
def renderEntryHtml (md : String → String) (entry : Entry) : String :=
  let content := md entry.raw_response
  "\n    <article class=\"mb-4\">\n      <div class=\"d-flex flex-wrap justify-content-between align-items-center mb-2\">\n        <h2 class=\"h5 mb-0\">"
    ++ escapeHtml (slotLabel entry)
    ++ "</h2>\n        <span class=\"text-muted small\">取得時刻 (UTC): "
    ++ escapeHtml entry.fetched_at
    ++ "</span>\n      </div>\n      <div class=\"markdown-body\">"
    ++ content
    ++ "</div>\n    </article>\n  "

/-- renderEntries of the legacy copy. -/
def renderEntries (md : String → String) (entries : List Entry) : String :=
  if entries.length = 0 then noDataHtml
  else String.join (entries.map (renderEntryHtml md))

/-- apiMetaHandler: the source's `app.get("/api/meta")` — the structured
`{minDate, maxDate, defaultDate}` payload, no HTML and no datastore access. -/
def apiMetaHandler (env : Bindings) (nowMs : Nat) (queryDate : Option String) :
    MetaResponse :=
  let minDate := env.EARLIEST_DATE.getD DEFAULT_EARLIEST_DATE
  let maxDate := formatJstDate nowMs
  let defaultDate := resolveDate queryDate maxDate
  { minDate := minDate, maxDate := maxDate, defaultDate := defaultDate }

/-- apiEntryHandler: the legacy `app.get("/api/entry")` — identical logic to
the primary one, except that the in-range branch returns
`renderEntries(entries)` directly rather than through `renderEntriesPartial`. -/
def apiEntryHandler (env : Bindings) (store : List Entry) (md : String → String)
    (nowMs : Nat) (queryDate : Option String) : HandlerResult :=
  let minDate := env.EARLIEST_DATE.getD DEFAULT_EARLIEST_DATE
  let maxDate := formatJstDate nowMs
  let date := resolveDate queryDate maxDate
  if !validateDateRange date minDate maxDate then
    { body := outOfRangeHtml, dbQueries := [] }
  else
    { body := renderEntries md (fetchEntriesForDate store date),
      dbQueries := [date] }

end Legacy

/-- Auxiliary: JavaScript's string comparison on character lists agrees with
the lexicographic order `List.lt` (and hence with Lean's order on `String`). -/
theorem jsLtChars_iff (s t : List Char) : jsLtChars s t = true ↔ s < t := by
  induction s generalizing t with
  | nil =>
    cases t with
    | nil =>
      simp only [jsLtChars, Bool.false_eq_true, false_iff]
      exact fun h => nomatch h
    | cons b bs =>
      simp only [jsLtChars, true_iff]
      exact List.Lex.nil
  | cons a as ih =>
    cases t with
    | nil =>
      simp only [jsLtChars, Bool.false_eq_true, false_iff]
      exact fun h => nomatch h
    | cons b bs =>
      simp only [jsLtChars]
      by_cases hab : a < b
      · simp only [hab, if_true, true_iff]
        exact List.Lex.rel hab
      · by_cases hba : b < a
        · simp only [hab, hba, if_false, if_true, Bool.false_eq_true, false_iff]
          intro h
          cases h with
          | cons h1 => exact absurd hba (lt_irrefl a)
          | rel h2 => exact hab h2
        · have heq : a = b := le_antisymm (not_lt.mp hba) (not_lt.mp hab)
          subst heq
          rw [if_neg hab, if_neg hba, ih bs]
          exact List.Lex.cons_iff.symm

/-- C3: `validateDateRange d min max` is `true` exactly when
`min ≤ d ∧ d ≤ max` in Lean's (lexicographic) order on strings, both bounds
inclusive. -/
theorem validateDateRange_iff_le (d lo hi : String) :
    validateDateRange d lo hi = true ↔ (lo ≤ d ∧ d ≤ hi) := by
  have hlt : ∀ a b : String, jsLtChars a.data b.data = true ↔ a < b := fun a b =>
    (jsLtChars_iff a.data b.data).trans String.lt_iff_toList_lt.symm
  simp only [validateDateRange, jsGeString, jsLeString, Bool.and_eq_true,
    Bool.not_eq_true', Bool.eq_false_iff, ne_eq, hlt]
  exact and_congr not_lt not_lt

/-- C2: `resolveDate` returns a syntactically valid `YYYY-MM-DD` input
unchanged and falls back for every other input — invalid strings, the empty
string, and an absent parameter; being a total function it never errors. -/
theorem resolveDate_spec (s f : String) :
    resolveDate (some s) f = (if isValidDateString s = true then s else f)
    ∧ resolveDate none f = f := by
  refine ⟨?_, rfl⟩
  by_cases h : isValidDateString s = true
  · have hne : s ≠ "" := by
      intro he
      subst he
      exact absurd h (by decide)
    have hs : s.isEmpty = false := by
      rw [Bool.eq_false_iff]
      intro he
      exact hne ((String.isEmpty_iff s).mp he)
    simp [resolveDate, h, hs]
  · simp [resolveDate, h]

/-- C4: the primary and the legacy `GET /api/entry` route handlers are
behaviorally equivalent — for every environment, store contents, markdown
converter, current time and date parameter they produce the same response
body and the same datastore accesses. -/
theorem apiEntry_handlers_equiv (env : Bindings) (store : List Entry)
    (md : String → String) (nowMs : Nat) (q : Option String) :
    apiEntryHandler env store md nowMs q = Legacy.apiEntryHandler env store md nowMs q :=
  rfl

/-- C5: `fetchEntriesForDate` returns exactly the stored entries whose `date`
equals the argument (a permutation of the filter, every returned entry carries
the requested date), ordered ascending by `slot`; when nothing matches it
returns the empty list rather than failing; and when the matching entries are
precisely a slot-0 entry and a slot-1 entry — in either insertion order — the
result is `[slot 0, slot 1]`. -/
theorem fetchEntriesForDate_spec (store : List Entry) (d : String) :
    (fetchEntriesForDate store d).Perm (store.filter (fun e => e.date == d))
    ∧ List.Sorted slotLe (fetchEntriesForDate store d)
    ∧ (∀ e ∈ fetchEntriesForDate store d, e.date = d)
    ∧ ((∀ e ∈ store, e.date ≠ d) → fetchEntriesForDate store d = [])
    ∧ (∀ e0 e1 : Entry, e0.slot = 0 → e1.slot = 1 →
        (store.filter (fun e => e.date == d)).Perm [e0, e1] →
        fetchEntriesForDate store d = [e0, e1]) := by
  have hperm : (fetchEntriesForDate store d).Perm (store.filter (fun e => e.date == d)) :=
    List.perm_insertionSort slotLe _
  have hsort : List.Sorted slotLe (fetchEntriesForDate store d) :=
    List.sorted_insertionSort slotLe _
  refine ⟨hperm, hsort, ?_, ?_, ?_⟩
  · intro e he
    have hmem := hperm.mem_iff.mp he
    rw [List.mem_filter] at hmem
    exact eq_of_beq hmem.2
  · intro hnone
    have hfil : store.filter (fun e => e.date == d) = [] := by
      rw [List.filter_eq_nil_iff]
      intro e he
      simpa using hnone e he
    have h2 := hperm
    rw [hfil] at h2
    exact h2.eq_nil
  · intro e0 e1 h0 h1 hpair
    have hp2 : (fetchEntriesForDate store d).Perm [e0, e1] := hperm.trans hpair
    have hmap : ((fetchEntriesForDate store d).map Entry.slot).Perm [0, 1] := by
      have hm := hp2.map Entry.slot
      simpa [h0, h1] using hm
    have hsortmap : List.Sorted (· ≤ ·) ((fetchEntriesForDate store d).map Entry.slot) := by
      rw [List.Sorted, List.pairwise_map]
      exact hsort
    have hmapeq : (fetchEntriesForDate store d).map Entry.slot = [0, 1] :=
      List.eq_of_perm_of_sorted hmap hsortmap (by decide)
    obtain ⟨a, b, hab⟩ : ∃ a b, fetchEntriesForDate store d = [a, b] := by
      cases hl : fetchEntriesForDate store d with
      | nil =>
        rw [hl] at hmapeq
        exact absurd hmapeq (by simp)
      | cons a t =>
        cases t with
        | nil =>
          rw [hl] at hmapeq
          exact absurd hmapeq (by simp)
        | cons b t2 =>
          cases t2 with
          | nil => exact ⟨a, b, rfl⟩
          | cons c t3 =>
            rw [hl] at hmapeq
            exact absurd hmapeq (by simp)
    rw [hab] at hmapeq hp2
    obtain ⟨ha0, hb1⟩ : a.slot = 0 ∧ b.slot = 1 := by simpa using hmapeq
    have haMem : a ∈ [e0, e1] := hp2.mem_iff.mp (by simp)
    have hbMem : b ∈ [e0, e1] := hp2.mem_iff.mp (by simp)
    have hae : a = e0 := by
      rcases (by simpa using haMem : a = e0 ∨ a = e1) with h | h
      · exact h
      · rw [h, h1] at ha0
        exact absurd ha0 (by decide)
    have hbe : b = e1 := by
      rcases (by simpa using hbMem : b = e0 ∨ b = e1) with h | h
      · rw [h, h0] at hb1
        exact absurd hb1 (by decide)
      · exact h
    rw [hab, hae, hbe]

/-- Witness for C5: a store holding the slot-1 entry before the slot-0 entry
still yields them in slot order. -/
theorem fetchEntriesForDate_spec_witness :
    fetchEntriesForDate
        [⟨2, "2025-12-25", 1, "b", "t1"⟩, ⟨1, "2025-12-25", 0, "a", "t0"⟩]
        "2025-12-25"
      = [⟨1, "2025-12-25", 0, "a", "t0"⟩, ⟨2, "2025-12-25", 1, "b", "t1"⟩] :=
  (fetchEntriesForDate_spec
      [⟨2, "2025-12-25", 1, "b", "t1"⟩, ⟨1, "2025-12-25", 0, "a", "t0"⟩]
      "2025-12-25").2.2.2.2
    ⟨1, "2025-12-25", 0, "a", "t0"⟩ ⟨2, "2025-12-25", 1, "b", "t1"⟩ rfl rfl (by decide)

/-- C6: `renderEntries` yields the fixed "no data" placeholder on the empty
sequence (it takes no date argument, so the placeholder cannot depend on the
requested date), and otherwise the concatenation of the per-entry fragments in
input order. -/
theorem renderEntries_spec (md : String → String) (es : List Entry) :
    (es = [] → renderEntries md es = noDataHtml)
    ∧ (es ≠ [] → renderEntries md es = String.join (es.map (renderEntryHtml md))) := by
  constructor
  · intro h
    subst h
    rfl
  · intro h
    have hlen : ¬ es.length = 0 := by simpa using h
    simp only [renderEntries, if_neg hlen]

/-- Witness for C6: the placeholder on `[]`, and the concatenation on a
one-entry list. -/
theorem renderEntries_spec_witness :
    renderEntries id ([] : List Entry) = noDataHtml
    ∧ renderEntries id [⟨1, "2025-12-25", 0, "hello", "t0"⟩]
      = String.join ([(⟨1, "2025-12-25", 0, "hello", "t0"⟩ : Entry)].map (renderEntryHtml id)) :=
  ⟨(renderEntries_spec id []).1 rfl,
   (renderEntries_spec id [⟨1, "2025-12-25", 0, "hello", "t0"⟩]).2 (by simp)⟩

/-- C9: the slot label of the fragment produced by `renderEntryHtml` is
"00:00 取得" when the entry's slot is 0 and "12:00 取得" when it is 1 — the
`slotLabel` selection takes those values, and the rendered fragment carries the
label verbatim. -/
theorem renderEntry_slotLabel_spec (md : String → String) (e : Entry) :
    (e.slot = 0 → slotLabel e = "00:00 取得"
      ∧ ∃ pre suf, renderEntryHtml md e = pre ++ "00:00 取得" ++ suf)
    ∧ (e.slot = 1 → slotLabel e = "12:00 取得"
      ∧ ∃ pre suf, renderEntryHtml md e = pre ++ "12:00 取得" ++ suf) := by
  constructor
  · intro h
    have hl : slotLabel e = "00:00 取得" := by simp [slotLabel, h]
    have hesc : escapeHtml "00:00 取得" = "00:00 取得" := by decide
    refine ⟨hl,
      "\n    <article class=\"mb-4\">\n      <div class=\"d-flex flex-wrap justify-content-between align-items-center mb-2\">\n        <h2 class=\"h5 mb-0\">",
      "</h2>\n        <span class=\"text-muted small\">取得時刻 (UTC): "
        ++ escapeHtml e.fetched_at
        ++ "</span>\n      </div>\n      <div class=\"markdown-body\">"
        ++ md e.raw_response
        ++ "</div>\n    </article>\n  ", ?_⟩
    simp only [renderEntryHtml, hl, hesc, String.append_assoc]
  · intro h
    have hl : slotLabel e = "12:00 取得" := by
      have : e.slot ≠ 0 := by rw [h]; decide
      simp [slotLabel, this]
    have hesc : escapeHtml "12:00 取得" = "12:00 取得" := by decide
    refine ⟨hl,
      "\n    <article class=\"mb-4\">\n      <div class=\"d-flex flex-wrap justify-content-between align-items-center mb-2\">\n        <h2 class=\"h5 mb-0\">",
      "</h2>\n        <span class=\"text-muted small\">取得時刻 (UTC): "
        ++ escapeHtml e.fetched_at
        ++ "</span>\n      </div>\n      <div class=\"markdown-body\">"
        ++ md e.raw_response
        ++ "</div>\n    </article>\n  ", ?_⟩
    simp only [renderEntryHtml, hl, hesc, String.append_assoc]

/-- Witness for C9: the label for a concrete slot-0 entry and a concrete
slot-1 entry. -/
theorem renderEntry_slotLabel_witness :
    (slotLabel ⟨1, "2025-12-25", 0, "x", "t"⟩ = "00:00 取得"
      ∧ ∃ pre suf, renderEntryHtml id ⟨1, "2025-12-25", 0, "x", "t"⟩
          = pre ++ "00:00 取得" ++ suf)
    ∧ (slotLabel ⟨2, "2025-12-25", 1, "y", "t"⟩ = "12:00 取得"
      ∧ ∃ pre suf, renderEntryHtml id ⟨2, "2025-12-25", 1, "y", "t"⟩
          = pre ++ "12:00 取得" ++ suf) :=
  ⟨(renderEntry_slotLabel_spec id ⟨1, "2025-12-25", 0, "x", "t"⟩).1 rfl,
   (renderEntry_slotLabel_spec id ⟨2, "2025-12-25", 1, "y", "t"⟩).2 rfl⟩

/-- C10: for an entry whose slot is neither 0 nor 1 (for example 2 or -1) the
renderer neither errors nor leaves the entry unlabeled: the label is
"12:00 取得" and the fragment is exactly the one produced for the same entry
with slot 1 — the ternary in the code sends every non-zero slot to the 12:00
branch. -/
theorem renderEntry_unknown_slot_spec (md : String → String) (e : Entry) :
    e.slot ≠ 0 → e.slot ≠ 1 →
    slotLabel e = "12:00 取得"
    ∧ renderEntryHtml md e = renderEntryHtml md { e with slot := 1 } := by
  intro h0 _h1
  have hl : slotLabel e = "12:00 取得" := by simp [slotLabel, h0]
  refine ⟨hl, ?_⟩
  simp [renderEntryHtml, slotLabel, h0]

/-- Witness for C10: a concrete entry with slot 2 renders with the 12:00
label, identically to its slot-1 variant. -/
theorem renderEntry_unknown_slot_witness :
    slotLabel ⟨1, "2026-01-01", 2, "x", "t"⟩ = "12:00 取得"
    ∧ renderEntryHtml id ⟨1, "2026-01-01", 2, "x", "t"⟩
        = renderEntryHtml id ⟨1, "2026-01-01", 1, "x", "t"⟩ :=
  renderEntry_unknown_slot_spec id ⟨1, "2026-01-01", 2, "x", "t"⟩
    (by decide) (by decide)

/-- C1: `GET /api/entry` — when the resolved date falls outside the inclusive
window `[minDate, maxDate]` the handler returns the fixed out-of-range warning
fragment and performs no datastore query; otherwise it queries the store once
for the resolved date and returns the rendered entry-list fragment (the body
is `renderEntries`, not a `renderPage` document). -/
theorem apiEntry_spec (env : Bindings) (store : List Entry) (md : String → String)
    (nowMs : Nat) (q : Option String) :
    (validateDateRange (resolveDate q (formatJstDate nowMs))
        (env.EARLIEST_DATE.getD DEFAULT_EARLIEST_DATE) (formatJstDate nowMs) = false →
      apiEntryHandler env store md nowMs q = { body := outOfRangeHtml, dbQueries := [] })
    ∧ (validateDateRange (resolveDate q (formatJstDate nowMs))
        (env.EARLIEST_DATE.getD DEFAULT_EARLIEST_DATE) (formatJstDate nowMs) = true →
      apiEntryHandler env store md nowMs q =
        { body := renderEntries md
            (fetchEntriesForDate store (resolveDate q (formatJstDate nowMs))),
          dbQueries := [resolveDate q (formatJstDate nowMs)] }) := by
  constructor
  · intro h
    simp [apiEntryHandler, h]
  · intro h
    simp [apiEntryHandler, h, renderEntriesPartial]

/-- Witness for C1: the spec scenario — requesting `date=2099-01-01` when
`maxDate = "2026-06-01"` returns the warning fragment and touches no data. -/
theorem apiEntry_witness :
    apiEntryHandler ⟨none⟩ [⟨1, "2026-01-01", 0, "x", "t"⟩] id 1780272000000
        (some "2099-01-01")
      = { body := outOfRangeHtml, dbQueries := [] } :=
  (apiEntry_spec ⟨none⟩ [⟨1, "2026-01-01", 0, "x", "t"⟩] id 1780272000000
      (some "2099-01-01")).1 (by decide)

/-- C7: the full-page routes `GET /` (query parameter) and `GET /date/:date`
(path parameter) — the requested date is resolved with fallback `maxDate`; in
range the store is queried for that date, out of range the empty entry list is
used and the store is untouched; in both cases the response body is the full
`renderPage` document (the out-of-range branch is an ordinary page, never a
failure), and every `renderPage` document begins with the doctype. -/
theorem fullPage_spec (env : Bindings) (store : List Entry) (md : String → String)
    (nowMs : Nat) (q : Option String) (p : String) :
    (validateDateRange (resolveDate q (formatJstDate nowMs))
        (env.EARLIEST_DATE.getD DEFAULT_EARLIEST_DATE) (formatJstDate nowMs) = true →
      getRootHandler env store md nowMs q =
        { body := renderPage md (resolveDate q (formatJstDate nowMs))
            (fetchEntriesForDate store (resolveDate q (formatJstDate nowMs)))
            (env.EARLIEST_DATE.getD DEFAULT_EARLIEST_DATE) (formatJstDate nowMs),
          dbQueries := [resolveDate q (formatJstDate nowMs)] })
    ∧ (validateDateRange (resolveDate q (formatJstDate nowMs))
        (env.EARLIEST_DATE.getD DEFAULT_EARLIEST_DATE) (formatJstDate nowMs) = false →
      getRootHandler env store md nowMs q =
        { body := renderPage md (resolveDate q (formatJstDate nowMs)) []
            (env.EARLIEST_DATE.getD DEFAULT_EARLIEST_DATE) (formatJstDate nowMs),
          dbQueries := [] })
    ∧ (validateDateRange (resolveDate (some p) (formatJstDate nowMs))
        (env.EARLIEST_DATE.getD DEFAULT_EARLIEST_DATE) (formatJstDate nowMs) = true →
      getDateHandler env store md nowMs p =
        { body := renderPage md (resolveDate (some p) (formatJstDate nowMs))
            (fetchEntriesForDate store (resolveDate (some p) (formatJstDate nowMs)))
            (env.EARLIEST_DATE.getD DEFAULT_EARLIEST_DATE) (formatJstDate nowMs),
          dbQueries := [resolveDate (some p) (formatJstDate nowMs)] })
    ∧ (validateDateRange (resolveDate (some p) (formatJstDate nowMs))
        (env.EARLIEST_DATE.getD DEFAULT_EARLIEST_DATE) (formatJstDate nowMs) = false →
      getDateHandler env store md nowMs p =
        { body := renderPage md (resolveDate (some p) (formatJstDate nowMs)) []
            (env.EARLIEST_DATE.getD DEFAULT_EARLIEST_DATE) (formatJstDate nowMs),
          dbQueries := [] })
    ∧ (∀ date entries minDate maxDate, ∃ suf,
        renderPage md date entries minDate maxDate = pageDoctype ++ suf) := by
  refine ⟨fun h => by simp [getRootHandler, h],
    fun h => by simp [getRootHandler, h],
    fun h => by simp [getDateHandler, h],
    fun h => by simp [getDateHandler, h],
    fun date entries minDate maxDate =>
      ⟨pageHead ++ escapeHtml date ++ pageBetweenDateMin ++ escapeHtml minDate
        ++ pageBetweenMinMax ++ escapeHtml maxDate ++ pageAfterControls
        ++ escapeHtml minDate ++ pageRangeSep ++ escapeHtml maxDate
        ++ pageAfterRangeNote ++ renderEntries md entries ++ pageTail,
       by simp only [renderPage, String.append_assoc]⟩⟩

/-- Witness for C7: at `maxDate = "2026-06-01"`, the root route with no query
parameter serves the in-range page for `maxDate` (one fetch), the date route
with `2099-01-01` serves the out-of-range page with no entries and no fetch,
and the page starts with the doctype. -/
theorem fullPage_witness :
    getRootHandler ⟨none⟩ [] id 1780272000000 none
      = { body := renderPage id "2026-06-01" [] "2025-12-25" "2026-06-01",
          dbQueries := ["2026-06-01"] }
    ∧ getDateHandler ⟨none⟩ [] id 1780272000000 "2099-01-01"
      = { body := renderPage id "2099-01-01" [] "2025-12-25" "2026-06-01",
          dbQueries := [] }
    ∧ (∃ suf, renderPage id "2026-06-01" [] "2025-12-25" "2026-06-01"
        = pageDoctype ++ suf) := by
  have h := fullPage_spec ⟨none⟩ [] id 1780272000000 none "2099-01-01"
  exact ⟨h.1 (by decide), h.2.2.2.1 (by decide),
    h.2.2.2.2 "2026-06-01" [] "2025-12-25" "2026-06-01"⟩

/-- C8: `GET /api/meta` returns the structured object
`{minDate, maxDate, defaultDate}` where `defaultDate` resolves the optional
query parameter with fallback `maxDate`; in particular with no query parameter
and `EARLIEST_DATE` unset, `minDate` is the constant "2025-12-25" and both
`maxDate` and `defaultDate` are the current UTC+9 date. -/
theorem apiMeta_spec (env : Bindings) (nowMs : Nat) (q : Option String) :
    Legacy.apiMetaHandler env nowMs q =
      { minDate := env.EARLIEST_DATE.getD Legacy.DEFAULT_EARLIEST_DATE,
        maxDate := Legacy.formatJstDate nowMs,
        defaultDate := Legacy.resolveDate q (Legacy.formatJstDate nowMs) }
    ∧ (env.EARLIEST_DATE = none → q = none →
        Legacy.apiMetaHandler env nowMs q =
          { minDate := "2025-12-25",
            maxDate := Legacy.formatJstDate nowMs,
            defaultDate := Legacy.formatJstDate nowMs }) := by
  refine ⟨rfl, ?_⟩
  intro h1 h2
  subst h2
  obtain ⟨ed⟩ := env
  have h1' : ed = none := h1
  subst h1'
  rfl

/-- Witness for C8: at `nowMs` with UTC+9 date "2026-06-01", no query and no
configured earliest date. -/
theorem apiMeta_witness :
    Legacy.apiMetaHandler ⟨none⟩ 1780272000000 none
      = { minDate := "2025-12-25", maxDate := "2026-06-01",
          defaultDate := "2026-06-01" } :=
  ((apiMeta_spec ⟨none⟩ 1780272000000 none).2 rfl rfl).trans (by decide)
